import Mathlib

/-!
Shallow embedding of the `efinity/wasm-conf-demo` game contract
(`src/lib.rs`, `src/types.rs`) and proofs about its combat, randomness
and progression logic.

Machine integers are modelled as `Nat` (with explicit `% 2^32`, `% 2^64`
or `% 2^128` where the Rust code can wrap) and `Int` for the signed
casts in `calculate_attack_power`.  External collaborators (the chain
randomness source, attribute storage and the token ledger) are modelled
by an `Env` record supplying their responses; the contract storage is a
`Game` record threaded through every operation, mirroring `&mut self`.
-/

namespace WasmConf

/-- 2^32, the number of `u32` values. -/
def U32 : Nat := 4294967296

/-- The largest `u32` value, used as the divisor in `lerp`. -/
def U32MAX : Nat := 4294967295

/-- 2^64, the number of `u64` values. -/
def U64 : Nat := 18446744073709551616

/-- 2^128, the number of `u128` values (`TokenId` width). -/
def U128 : Nat := 340282366920938463463374607431768211456

/-- `u32::saturating_add` style clamp used for `saturating_add(1)` sites. -/
def u32sat (n : Nat) : Nat := min n (U32 - 1)

/-- Reinterpret a `u32` value as an `i32` (the Rust `as i32` cast). -/
def u32_as_i32 (x : Nat) : Int := (x % U32 : Nat) - (if x % U32 < 2147483648 then 0 else U32)

/-- Wrap an integer into `i32` two-complement range (release-mode `i32` arithmetic). -/
def wrapI32 (x : Int) : Int := (x + 2147483648) % (U32 : Int) - 2147483648

/-- Reinterpret an `i32` value as a `u32` (the Rust `as u32` cast). -/
def i32_as_u32 (x : Int) : Nat := (x % (U32 : Int)).toNat

/-- `types.rs`: inclusive range with `u32` endpoints. -/
structure Range where
  start : Nat
  «end» : Nat
deriving DecidableEq, Repr

/-- `types.rs` `Range::contains`. -/
def Range.contains (r : Range) (value : Nat) : Bool :=
  value ≥ r.start && value ≤ r.«end»

/-- `types.rs`: the game configuration. -/
structure Config where
  hero_max_health : Nat
  starting_weapon_strength_range : Range
  purchased_weapon_strength_range : Range
  hero_initial_potion_count : Nat
  enemy_health_range : Range
  enemy_strength_range : Range
  enemy_gold_drop_range : Range
  attack_variance : Nat
  enemy_wearing_hat_chance : Nat
  hero_goes_first_chance : Nat
  rest_cost : Nat
  potion_cost : Nat
  weapon_cost : Nat
deriving DecidableEq, Repr

/-- `types.rs` `impl Default for Config`. -/
def Config.default : Config where
  hero_max_health := 50
  starting_weapon_strength_range := ⟨5, 10⟩
  purchased_weapon_strength_range := ⟨6, 13⟩
  hero_initial_potion_count := 2
  enemy_health_range := ⟨30, 60⟩
  enemy_strength_range := ⟨5, 15⟩
  enemy_gold_drop_range := ⟨20, 50⟩
  attack_variance := 2
  enemy_wearing_hat_chance := 35
  hero_goes_first_chance := 50
  rest_cost := 15
  potion_cost := 50
  weapon_cost := 125

/-- `types.rs`: a mutation of config values; `None` fields are left unchanged.
Note there is no `attack_variance` field. -/
structure ConfigMutation where
  hero_max_health : Option Nat := none
  starting_weapon_strength_range : Option Range := none
  purchased_weapon_strength_range : Option Range := none
  hero_initial_potion_count : Option Nat := none
  enemy_health_range : Option Range := none
  enemy_strength_range : Option Range := none
  enemy_gold_drop_range : Option Range := none
  enemy_wearing_hat_chance : Option Nat := none
  hero_goes_first_chance : Option Nat := none
  rest_cost : Option Nat := none
  potion_cost : Option Nat := none
  weapon_cost : Option Nat := none
deriving DecidableEq, Repr

/-- One `maybe_set_field!(hero_max_health)` invocation of
`types.rs` `ConfigMutation::apply_to`. -/
def ConfigMutation.maybe_set_hero_max_health (self : ConfigMutation) (config : Config) : Config :=
  match self.hero_max_health with
  | some v => { config with hero_max_health := v }
  | none => config

/-- One `maybe_set_field!(starting_weapon_strength_range)` invocation of
`types.rs` `ConfigMutation::apply_to`. -/
def ConfigMutation.maybe_set_starting_weapon_strength_range (self : ConfigMutation) (config : Config) : Config :=
  match self.starting_weapon_strength_range with
  | some v => { config with starting_weapon_strength_range := v }
  | none => config

/-- One `maybe_set_field!(hero_initial_potion_count)` invocation of
`types.rs` `ConfigMutation::apply_to`. -/
def ConfigMutation.maybe_set_hero_initial_potion_count (self : ConfigMutation) (config : Config) : Config :=
  match self.hero_initial_potion_count with
  | some v => { config with hero_initial_potion_count := v }
  | none => config

/-- One `maybe_set_field!(purchased_weapon_strength_range)` invocation of
`types.rs` `ConfigMutation::apply_to`. -/
def ConfigMutation.maybe_set_purchased_weapon_strength_range (self : ConfigMutation) (config : Config) : Config :=
  match self.purchased_weapon_strength_range with
  | some v => { config with purchased_weapon_strength_range := v }
  | none => config

/-- One `maybe_set_field!(enemy_health_range)` invocation of
`types.rs` `ConfigMutation::apply_to`. -/
def ConfigMutation.maybe_set_enemy_health_range (self : ConfigMutation) (config : Config) : Config :=
  match self.enemy_health_range with
  | some v => { config with enemy_health_range := v }
  | none => config

/-- One `maybe_set_field!(enemy_strength_range)` invocation of
`types.rs` `ConfigMutation::apply_to`. -/
def ConfigMutation.maybe_set_enemy_strength_range (self : ConfigMutation) (config : Config) : Config :=
  match self.enemy_strength_range with
  | some v => { config with enemy_strength_range := v }
  | none => config

/-- One `maybe_set_field!(enemy_gold_drop_range)` invocation of
`types.rs` `ConfigMutation::apply_to`. -/
def ConfigMutation.maybe_set_enemy_gold_drop_range (self : ConfigMutation) (config : Config) : Config :=
  match self.enemy_gold_drop_range with
  | some v => { config with enemy_gold_drop_range := v }
  | none => config

/-- One `maybe_set_field!(enemy_wearing_hat_chance)` invocation of
`types.rs` `ConfigMutation::apply_to`. -/
def ConfigMutation.maybe_set_enemy_wearing_hat_chance (self : ConfigMutation) (config : Config) : Config :=
  match self.enemy_wearing_hat_chance with
  | some v => { config with enemy_wearing_hat_chance := v }
  | none => config

/-- One `maybe_set_field!(hero_goes_first_chance)` invocation of
`types.rs` `ConfigMutation::apply_to`. -/
def ConfigMutation.maybe_set_hero_goes_first_chance (self : ConfigMutation) (config : Config) : Config :=
  match self.hero_goes_first_chance with
  | some v => { config with hero_goes_first_chance := v }
  | none => config

/-- One `maybe_set_field!(rest_cost)` invocation of
`types.rs` `ConfigMutation::apply_to`. -/
def ConfigMutation.maybe_set_rest_cost (self : ConfigMutation) (config : Config) : Config :=
  match self.rest_cost with
  | some v => { config with rest_cost := v }
  | none => config

/-- One `maybe_set_field!(potion_cost)` invocation of
`types.rs` `ConfigMutation::apply_to`. -/
def ConfigMutation.maybe_set_potion_cost (self : ConfigMutation) (config : Config) : Config :=
  match self.potion_cost with
  | some v => { config with potion_cost := v }
  | none => config

/-- One `maybe_set_field!(weapon_cost)` invocation of
`types.rs` `ConfigMutation::apply_to`. -/
def ConfigMutation.maybe_set_weapon_cost (self : ConfigMutation) (config : Config) : Config :=
  match self.weapon_cost with
  | some v => { config with weapon_cost := v }
  | none => config

/-- `types.rs` `ConfigMutation::apply_to`: set each field that is `Some`,
one `maybe_set_field!` step per field, in the source order of the macro
invocations. -/
def ConfigMutation.apply_to (self : ConfigMutation) (config : Config) : Config :=
  self.maybe_set_weapon_cost (self.maybe_set_potion_cost (self.maybe_set_rest_cost (self.maybe_set_hero_goes_first_chance (self.maybe_set_enemy_wearing_hat_chance (self.maybe_set_enemy_gold_drop_range (self.maybe_set_enemy_strength_range (self.maybe_set_enemy_health_range (self.maybe_set_purchased_weapon_strength_range (self.maybe_set_hero_initial_potion_count (self.maybe_set_starting_weapon_strength_range (self.maybe_set_hero_max_health config)))))))))))

/-- `types.rs`: the error enumeration.  External ledger failures are
collapsed into the single `efinityError` constructor. -/
inductive Error where
  | efinityError
  | noPermission
  | invalidEquipment
  | attributeDecodeFailed
  | heroNotFound
  | heroIsInBattle
  | heroNotInBattle
  | heroHasNoPotions
  | notEnoughGold
deriving DecidableEq, Repr

/-- `types.rs` `TokenMetadata`: the strength attribute stored on equipment. -/
structure TokenMetadata where
  strength : Nat
deriving DecidableEq, Repr

/-- `types.rs` `Enemy`. -/
structure Enemy where
  hat_id : Option Nat
  health : Nat
  strength : Nat
deriving DecidableEq, Repr

/-- `types.rs` `Enemy::is_dead`. -/
def Enemy.is_dead (e : Enemy) : Bool := e.health == 0

/-- `types.rs` `Battle`. -/
structure Battle where
  round_number : Nat
  enemy : Enemy
deriving DecidableEq, Repr

/-- `types.rs` `Battle::new`: a fresh battle starts at round 0. -/
def Battle.new (enemy : Enemy) : Battle where
  round_number := 0
  enemy := enemy

/-- `types.rs` `Hero`. -/
structure Hero where
  health : Nat
  weapon_id : Nat
  hat_id : Option Nat
  potion_count : Nat
  battle : Option Battle
  highest_consecutive_victory_count : Nat
  consecutive_victory_count : Nat
deriving DecidableEq, Repr

/-- `types.rs` `Hero::new`. -/
def Hero.new (health : Nat) (weapon_id : Nat) (potion_count : Nat) : Hero where
  health := health
  weapon_id := weapon_id
  hat_id := none
  potion_count := potion_count
  battle := none
  highest_consecutive_victory_count := 0
  consecutive_victory_count := 0

/-- `types.rs` `Hero::is_dead`. -/
def Hero.is_dead (h : Hero) : Bool := h.health == 0

/-- `types.rs` `Command`. -/
inductive Command where
  | attack
  | heal
deriving DecidableEq, Repr

/-- `types.rs` `TokenType` with its `u8` discriminants. -/
inductive TokenType where
  | weapon
  | hat
deriving DecidableEq, Repr

/-- The `u8` value of a `TokenType` (`Weapon = 1`, `Hat = 2`). -/
def TokenType.value : TokenType → Nat
  | .weapon => 1
  | .hat => 2

/-- `types.rs` `WrappedTokenId::TOKEN_TYPE_BIT_MASK` (`0b1111 << 124`). -/
def tokenTypeBitMask : Nat := 15 <<< 124

/-- `types.rs` `WrappedTokenId::new`: clear the four type bits of a
`u128` token id and store the type discriminant there. -/
def wrappedTokenId (id : Nat) (token_type : Option TokenType) : Nat :=
  let token_type_value := (token_type.map TokenType.value).getD 0
  let cleared := id % U128 &&& (U128 - 1 - tokenTypeBitMask)
  cleared ||| ((token_type_value <<< 124) % U128)

/-- `lib.rs` `lerp`: linear interpolation of `t` (a `u32` treated as a
fraction of `u32::MAX`) into `[a, b]`, in `u64` arithmetic with the
fixed-point scale 100. -/
def lerp (a b t : Nat) : Nat :=
  let a := a % U32
  let b := b % U32
  let t := t % U32
  let input := t * 100
  let fraction := input / U32MAX
  let length := (b + U64 - a) % U64
  let output := ((fraction * length) % U64 / 100 + a) % U64
  output % U32

/-- The responses of the external collaborators consumed by the contract:
caller identity, block number, the verifiable-randomness beacon (as the
little-endian `u32` taken from the first four hash bytes, as a function of
the seed/nonce/block subject), the decoded equipment attribute store, and
success flags for each ledger operation. -/
structure Env where
  caller : Nat
  accountId : Nat
  blockNumber : Nat
  random : Nat → Nat → Nat → Nat
  attributeOf : Nat → Option (Option TokenMetadata)
  mintOk : Bool := true
  transferOk : Bool := true
  burnOk : Bool := true
  freezeOk : Bool := true
  thawOk : Bool := true
  setAttributeOk : Bool := true

/-- `lib.rs` `Game` storage. -/
structure Game where
  config : Config
  owner : Nat
  collection_id : Nat
  gold_token_id : Nat
  next_token_id : Nat
  random_nonce : Nat
  random_seed : Nat
  heroes : Nat → Option Hero

/-- `lib.rs` `random_in_range`: build the seed/nonce/block subject,
advance the nonce, decode a `u32` from the beacon hash and `lerp` it
into `range`. -/
def random_in_range (g : Game) (env : Env) (range : Range) : Game × Nat :=
  let t := env.random g.random_seed g.random_nonce env.blockNumber % U32
  let g' := { g with random_nonce := (g.random_nonce + 1) % U32 }
  (g', lerp range.start range.«end» t)

/-- `lib.rs` `random_chance`: draw in `[0, 100]` and compare with `chance`. -/
def random_chance (g : Game) (env : Env) (chance : Nat) : Game × Bool :=
  let p := random_in_range g env ⟨0, 100⟩
  (p.1, decide (p.2 ≤ chance))

/-- `lib.rs` `calculate_attack_power`: draw in `[0, attack_variance * 2 + 1]`,
shift by `attack_variance` via `i32` casts, and cast the result back to `u32`. -/
def calculate_attack_power (g : Game) (env : Env) (strength : Nat) : Game × Nat :=
  let p := random_in_range g env ⟨0, (g.config.attack_variance * 2 + 1) % U32⟩
  let delta := wrapI32 (u32_as_i32 p.2 - u32_as_i32 g.config.attack_variance)
  (p.1, i32_as_u32 (wrapI32 (u32_as_i32 strength + delta)))

/-- `lib.rs` `get_metadata`: look up the equipment attribute of a token and
decode it.  `env.attributeOf` returns `none` when no attribute exists, and
`some none` when the stored bytes do not decode. -/
def get_metadata (_g : Game) (env : Env) (token_id : Nat) : Except Error (Option TokenMetadata) :=
  match env.attributeOf token_id with
  | some (some metadata) => .ok (some metadata)
  | some none => .error .attributeDecodeFailed
  | none => .ok none

/-- `lib.rs` `hero_action`: `Attack` reads the weapon strength attribute
(failing with `InvalidEquipment` when absent) and deals attack power to the
enemy with saturating subtraction; `Heal` requires a potion and restores the
hero to max health. -/
def hero_action (g : Game) (env : Env) (hero : Hero) (battle : Battle)
    (command : Command) : Game × Except Error (Hero × Battle) :=
  match command with
  | .attack =>
    match get_metadata g env hero.weapon_id with
    | .error e => (g, .error e)
    | .ok none => (g, .error .invalidEquipment)
    | .ok (some metadata) =>
      let p := calculate_attack_power g env metadata.strength
      (p.1, .ok (hero,
        { battle with enemy := { battle.enemy with health := battle.enemy.health - p.2 } }))
  | .heal =>
    if hero.potion_count = 0 then (g, .error .heroHasNoPotions)
    else (g, .ok ({ hero with
        health := g.config.hero_max_health,
        potion_count := hero.potion_count - 1 }, battle))

/-- `lib.rs` `enemy_action`: the enemy deals attack power based on its
strength to the hero, with saturating subtraction.  The Rust function
returns `Result` but never fails. -/
def enemy_action (g : Game) (env : Env) (hero : Hero) (battle : Battle) :
    Game × Except Error (Hero × Battle) :=
  let p := calculate_attack_power g env battle.enemy.strength
  (p.1, .ok ({ hero with health := hero.health - p.2 }, battle))

/-- `lib.rs` `advance_battle`: the local `battle_is_over` predicate. -/
def battle_is_over (hero : Hero) (battle : Battle) : Bool :=
  hero.is_dead || battle.enemy.is_dead

/-- The turn-order block of `lib.rs` `advance_battle`: the first actor
acts, and the second acts only if the battle is not yet over. -/
def perform_actions (g : Game) (env : Env) (hero : Hero) (battle : Battle)
    (command : Command) (hero_goes_first : Bool) : Game × Except Error (Hero × Battle) :=
  if hero_goes_first then
    let p := hero_action g env hero battle command
    match p.2 with
    | .error e => (p.1, .error e)
    | .ok hb =>
      if battle_is_over hb.1 hb.2 then (p.1, .ok hb)
      else enemy_action p.1 env hb.1 hb.2
  else
    let p := enemy_action g env hero battle
    match p.2 with
    | .error e => (p.1, .error e)
    | .ok hb =>
      if battle_is_over hb.1 hb.2 then (p.1, .ok hb)
      else hero_action p.1 env hb.1 hb.2 command

/-- The victory block of `lib.rs` `advance_battle`: when the enemy is dead,
bump the victory counters, roll and mint the gold reward, and transfer the
enemy hat to the hero if present.  Returns the updated hero together with
the minted gold amount and the transferred hat, when any. -/
def process_victory (g : Game) (env : Env) (hero : Hero) (battle : Battle) :
    Game × Except Error (Hero × Option Nat × Option Nat) :=
  if battle.enemy.is_dead then
    let hero := { hero with
      consecutive_victory_count := u32sat (hero.consecutive_victory_count + 1) }
    let hero :=
      if hero.highest_consecutive_victory_count < hero.consecutive_victory_count then
        { hero with highest_consecutive_victory_count := hero.consecutive_victory_count }
      else hero
    let p := random_in_range g env g.config.enemy_gold_drop_range
    if env.mintOk then
      match battle.enemy.hat_id with
      | some hat_id =>
        if env.transferOk then (p.1, .ok (hero, some p.2, some hat_id))
        else (p.1, .error .efinityError)
      | none => (p.1, .ok (hero, some p.2, none))
    else (p.1, .error .efinityError)
  else (g, .ok (hero, none, none))

/-- The defeat block of `lib.rs` `advance_battle`: when the hero is dead,
reset its health to max, reset the victory streak, and burn the enemy hat
if present.  Returns the updated hero and the burned hat, when any. -/
def process_defeat (g : Game) (env : Env) (hero : Hero) (battle : Battle) :
    Game × Except Error (Hero × Option Nat) :=
  if hero.is_dead then
    let hero := { hero with
      health := g.config.hero_max_health,
      consecutive_victory_count := 0 }
    match battle.enemy.hat_id with
    | some hat_id =>
      if env.burnOk then (g, .ok (hero, some hat_id)) else (g, .error .efinityError)
    | none => (g, .ok (hero, none))
  else (g, .ok (hero, none))

/-- The observable outcome of a successful `advance_battle` call: the stored
hero, the final battle value, the `BattleAdvanced` event fields, the two
sides post-action healths, the ledger instructions issued, and the
`hero_wins` flag of the `BattleEnded` event when the battle concluded. -/
structure AdvanceOutcome where
  heroAfter : Hero
  battleAfter : Battle
  roundReported : Nat
  heroDamageReceived : Nat
  enemyDamageReceived : Nat
  heroHealthAfterActions : Nat
  enemyHealthAfterActions : Nat
  goldMinted : Option Nat
  hatTransferred : Option Nat
  hatBurned : Option Nat
  battleEnded : Option Bool
deriving DecidableEq, Repr

/-- The tail of `lib.rs` `advance_battle` after the actions: report the
round and damage deltas, increment the round number (saturating), then
either process the battle outcome and clear the battle, or store the
updated battle back onto the hero. -/
def finish_round (g : Game) (env : Env) (caller : Nat)
    (hero_initial_health enemy_initial_health : Nat)
    (hero : Hero) (battle0 : Battle) : Game × Except Error AdvanceOutcome :=
  let heroDamage := hero_initial_health - hero.health
  let enemyDamage := enemy_initial_health - battle0.enemy.health
  let roundReported := battle0.round_number
  let battle := { battle0 with round_number := u32sat (battle0.round_number + 1) }
  if battle_is_over hero battle then
    let hero := { hero with battle := none }
    let pv := process_victory g env hero battle
    match pv.2 with
    | .error e => (pv.1, .error e)
    | .ok v =>
      let pd := process_defeat pv.1 env v.1 battle
      match pd.2 with
      | .error e => (pd.1, .error e)
      | .ok d =>
        let g' := { pd.1 with
          heroes := fun a => if a = caller then some d.1 else pd.1.heroes a }
        (g', .ok {
          heroAfter := d.1
          battleAfter := battle
          roundReported := roundReported
          heroDamageReceived := heroDamage
          enemyDamageReceived := enemyDamage
          heroHealthAfterActions := hero.health
          enemyHealthAfterActions := battle0.enemy.health
          goldMinted := v.2.1
          hatTransferred := v.2.2
          hatBurned := d.2
          battleEnded := some (!d.1.is_dead) })
  else
    let heroF := { hero with battle := some battle }
    let g' := { g with heroes := fun a => if a = caller then some heroF else g.heroes a }
    (g', .ok {
      heroAfter := heroF
      battleAfter := battle
      roundReported := roundReported
      heroDamageReceived := heroDamage
      enemyDamageReceived := enemyDamage
      heroHealthAfterActions := hero.health
      enemyHealthAfterActions := battle0.enemy.health
      goldMinted := none
      hatTransferred := none
      hatBurned := none
      battleEnded := none })

/-- `lib.rs` `advance_battle`: look up the caller hero and its battle,
snapshot both healths, pick the turn order by `random_chance`, run the
actions and finish the round.  Returns the post-call storage together
with the result, mirroring `&mut self` (state mutated before a failure,
such as the advanced random nonce, persists). -/
def advance_battle (g : Game) (env : Env) (command : Command) :
    Game × Except Error AdvanceOutcome :=
  let caller := env.caller
  match g.heroes caller with
  | none => (g, .error .heroNotFound)
  | some hero =>
    match hero.battle with
    | none => (g, .error .heroNotInBattle)
    | some battle =>
      let hero_initial_health := hero.health
      let enemy_initial_health := battle.enemy.health
      let pc := random_chance g env g.config.hero_goes_first_chance
      let pa := perform_actions pc.1 env hero battle command pc.2
      match pa.2 with
      | .error e => (pa.1, .error e)
      | .ok hb => finish_round pa.1 env caller hero_initial_health enemy_initial_health hb.1 hb.2

/-- `lib.rs` `increment_next_token_id` combined with `mint_nft`: allocate
the next token id, wrap the token type into it, and mint (optionally
freezing) via the ledger. -/
def mint_nft (g : Game) (env : Env) (_recipient : Nat) (token_type : TokenType)
    (freeze : Bool) : Game × Except Error Nat :=
  let id := g.next_token_id
  let g := { g with next_token_id := (id + 1) % U128 }
  let token_id := wrappedTokenId id (some token_type)
  if env.mintOk then
    if freeze then
      if env.freezeOk then (g, .ok token_id) else (g, .error .efinityError)
    else (g, .ok token_id)
  else (g, .error .efinityError)

/-- `lib.rs` `add_equipment_attribute`: roll a strength in `strength_range`
and store it as the token attribute via the ledger. -/
def add_equipment_attribute (g : Game) (env : Env) (_token_id : Nat)
    (strength_range : Range) : Game × Except Error Nat :=
  let p := random_in_range g env strength_range
  if env.setAttributeOk then (p.1, .ok p.2) else (p.1, .error .efinityError)

/-- `lib.rs` `create_hero`: mint and freeze a starting weapon, roll its
strength attribute, and store a fresh `Hero::new` for the caller
(overwriting any existing hero). -/
def create_hero (g : Game) (env : Env) : Game × Except Error Hero :=
  let caller := env.caller
  let pm := mint_nft g env caller .weapon true
  match pm.2 with
  | .error e => (pm.1, .error e)
  | .ok weapon_id =>
    let pa := add_equipment_attribute pm.1 env weapon_id
      pm.1.config.starting_weapon_strength_range
    match pa.2 with
    | .error e => (pa.1, .error e)
    | .ok _weapon_strength =>
      let hero := Hero.new pa.1.config.hero_max_health weapon_id
        pa.1.config.hero_initial_potion_count
      let g' := { pa.1 with
        heroes := fun a => if a = caller then some hero else pa.1.heroes a }
      (g', .ok hero)

/-- `lib.rs` `start_battle`: require an existing hero, possibly mint a hat
for the enemy, roll the enemy health and strength, and store a fresh
`Battle::new` onto the hero (overwriting any existing battle). -/
def start_battle (g : Game) (env : Env) : Game × Except Error Unit :=
  let caller := env.caller
  match g.heroes caller with
  | none => (g, .error .heroNotFound)
  | some hero =>
    let pc := random_chance g env g.config.enemy_wearing_hat_chance
    let ph : Game × Except Error (Option Nat) :=
      if pc.2 then
        let pm := mint_nft pc.1 env env.accountId .hat false
        match pm.2 with
        | .error e => (pm.1, .error e)
        | .ok hat_id => (pm.1, .ok (some hat_id))
      else (pc.1, .ok none)
    match ph.2 with
    | .error e => (ph.1, .error e)
    | .ok hat_id =>
      let p1 := random_in_range ph.1 env ph.1.config.enemy_health_range
      let p2 := random_in_range p1.1 env p1.1.config.enemy_strength_range
      let enemy : Enemy := { hat_id := hat_id, health := p1.2, strength := p2.2 }
      let heroF := { hero with battle := some (Battle.new enemy) }
      let g' := { p2.1 with
        heroes := fun a => if a = caller then some heroF else p2.1.heroes a }
      (g', .ok ())

/-- `lib.rs` `mutate_config`: only the owner may apply a config mutation. -/
def mutate_config (g : Game) (env : Env) (mutation : ConfigMutation) :
    Game × Except Error Unit :=
  if env.caller ≠ g.owner then (g, .error .noPermission)
  else ({ g with config := mutation.apply_to g.config }, .ok ())

/-- A test game with the default configuration and empty hero storage,
used to evaluate the contract code at concrete inputs. -/
def testGame : Game where
  config := Config.default
  owner := 0
  collection_id := 1000
  gold_token_id := 0
  next_token_id := 1
  random_nonce := 0
  random_seed := 0
  heroes := fun _ => none

/-- A test environment whose randomness beacon always yields `t` and whose
attribute store is empty. -/
def constEnv (t : Nat) : Env where
  caller := 1
  accountId := 99
  blockNumber := 0
  random := fun _ _ _ => t
  attributeOf := fun _ => none

/-- A pre-existing hero stored in the fixture games, with some progression. -/
def heroPrev : Hero where
  health := 7
  weapon_id := 5
  hat_id := some 3
  potion_count := 0
  battle := some (Battle.new { hat_id := none, health := 40, strength := 9 })
  highest_consecutive_victory_count := 9
  consecutive_victory_count := 4

/-- The test game with `heroPrev` stored for account 1. -/
def testGameWithHero : Game :=
  { testGame with heroes := fun a => if a = 1 then some heroPrev else none }

/-- All components of the contract storage except the random nonce are
equal.  The random nonce is the only storage the randomness helpers touch. -/
def Game.eqExceptNonce (a b : Game) : Prop :=
  a.config = b.config ∧ a.owner = b.owner ∧ a.collection_id = b.collection_id ∧
  a.gold_token_id = b.gold_token_id ∧ a.next_token_id = b.next_token_id ∧
  a.random_seed = b.random_seed ∧ a.heroes = b.heroes

/-- Outcome fixture used only as the default of `okOr`. -/
def defaultOutcome : AdvanceOutcome where
  heroAfter := Hero.new 0 0 0
  battleAfter := Battle.new { hat_id := none, health := 0, strength := 0 }
  roundReported := 0
  heroDamageReceived := 0
  enemyDamageReceived := 0
  heroHealthAfterActions := 0
  enemyHealthAfterActions := 0
  goldMinted := none
  hatTransferred := none
  hatBurned := none
  battleEnded := none

/-- Total extractor for a successful outcome, used to state witnesses about
concrete runs without spelling out the whole outcome record. -/
def okOr (r : Except Error AdvanceOutcome) (d : AdvanceOutcome) : AdvanceOutcome :=
  match r with
  | .ok o => o
  | .error _ => d

/-- A hero about to lose: 1 health, in battle against an already dead enemy
with strength 10 (so a run where the enemy both counts as defeated and
kills the hero in the same resolution is reachable). -/
def heroDying : Hero where
  health := 1
  weapon_id := 5
  hat_id := none
  potion_count := 0
  battle := some { round_number := 3, enemy := { hat_id := none, health := 0, strength := 10 } }
  highest_consecutive_victory_count := 9
  consecutive_victory_count := 4

/-- Test game storing `heroDying` for account 1. -/
def bothDeadGame : Game :=
  { testGame with heroes := fun a => if a = 1 then some heroDying else none }

/-- Witness for the amended C5: a clean victory at full health. -/
def heroWinning : Hero where
  health := 50
  weapon_id := 5
  hat_id := none
  potion_count := 0
  battle := some { round_number := 2, enemy := { hat_id := none, health := 1, strength := 5 } }
  highest_consecutive_victory_count := 0
  consecutive_victory_count := 0

/-- Test game storing `heroWinning` for account 1. -/
def winGame : Game :=
  { testGame with heroes := fun a => if a = 1 then some heroWinning else none }

/-- Environment whose beacon always yields `t` and whose attribute store
reports strength 10 for every token. -/
def envAttack (t : Nat) : Env :=
  { constEnv t with attributeOf := fun _ => some (some { strength := 10 }) }

/-- A mid-battle hero for the round-accounting witness. -/
def heroFighting : Hero where
  health := 50
  weapon_id := 5
  hat_id := none
  potion_count := 0
  battle := some { round_number := 3, enemy := { hat_id := none, health := 30, strength := 5 } }
  highest_consecutive_victory_count := 9
  consecutive_victory_count := 4

/-- Test game storing `heroFighting` for account 1. -/
def fightGame : Game :=
  { testGame with heroes := fun a => if a = 1 then some heroFighting else none }

/-!  ## Randomness and attack power (claims C1, C2, C3)  -/

/-- For `start ≤ end < 2^32` and every `t`, `lerp start end t` lies in
the closed interval `[start, end]`. -/
theorem lerp_bounds (a b t : Nat) (hab : a ≤ b) (hb : b < 4294967296) :
    a ≤ lerp a b t ∧ lerp a b t ≤ b := by
  have ha32 : a % 4294967296 = a := Nat.mod_eq_of_lt (by omega)
  have hb32 : b % 4294967296 = b := Nat.mod_eq_of_lt hb
  have hfrac : t % 4294967296 * 100 / 4294967295 ≤ 100 := by
    have h1 : t % 4294967296 * 100 ≤ 4294967295 * 100 := by
      have := Nat.mod_lt t (y := 4294967296) (by norm_num)
      omega
    have h2 : t % 4294967296 * 100 / 4294967295 ≤ 4294967295 * 100 / 4294967295 :=
      Nat.div_le_div_right h1
    have h3 : 4294967295 * 100 / 4294967295 = 100 := by norm_num
    omega
  unfold lerp
  simp only [U32, U64, U32MAX, ha32, hb32]
  set F := t % 4294967296 * 100 / 4294967295 with hF
  have hlen : (b + 18446744073709551616 - a) % 18446744073709551616 = b - a := by omega
  rw [hlen]
  have hFL : F * (b - a) ≤ 100 * (b - a) := Nat.mul_le_mul_right _ hfrac
  have hFLlt : F * (b - a) < 18446744073709551616 := by omega
  rw [Nat.mod_eq_of_lt hFLlt]
  have hdiv : F * (b - a) / 100 ≤ b - a := by
    have h4 : F * (b - a) / 100 ≤ 100 * (b - a) / 100 := Nat.div_le_div_right hFL
    have h5 : 100 * (b - a) / 100 = b - a := by
      rw [Nat.mul_div_cancel_left _ (by norm_num)]
    omega
  rw [Nat.mod_eq_of_lt (by omega), Nat.mod_eq_of_lt (by omega)]
  omega

/-- C3: for every `Range` with `start ≤ end` and every `u32` value `t`, the
interpolation `lerp start end t` — and hence the value returned by
`random_in_range` — lies in the closed interval `[start, end]`; in
particular `lerp 0 100 u32::MAX = 100`, `lerp 0 100 (u32::MAX/2+1) = 50`
and `lerp 5 100 0 = 5`. -/
theorem lerp_and_random_in_range_in_closed_interval :
    (∀ a b t, a ≤ b → b < 4294967296 → a ≤ lerp a b t ∧ lerp a b t ≤ b) ∧
    (∀ g env r, r.start ≤ r.«end» → r.«end» < 4294967296 →
      r.start ≤ (random_in_range g env r).2 ∧ (random_in_range g env r).2 ≤ r.«end») ∧
    lerp 0 100 4294967295 = 100 ∧
    lerp 0 100 (4294967295 / 2 + 1) = 50 ∧
    lerp 5 100 0 = 5 :=
  ⟨fun a b t hab hb => lerp_bounds a b t hab hb,
   fun _g _env r h1 h2 => lerp_bounds r.start r.«end» _ h1 h2,
   by decide, by decide, by decide⟩

/-- Witness for C3 at a concrete range and draw. -/
theorem lerp_and_random_in_range_in_closed_interval_witness :
    5 ≤ lerp 5 100 2147483648 ∧ lerp 5 100 2147483648 ≤ 100 :=
  lerp_and_random_in_range_in_closed_interval.1 5 100 2147483648
    (by decide) (by decide)

/-- C1 fails on the code: `calculate_attack_power` draws its offset from
`[0, 2 * attack_variance + 1]` (one more than the documented
`[0, 2 * attack_variance]`), so at the achievable beacon draw
`t = u32::MAX` the result exceeds `strength + attack_variance`.  With the
default config (`attack_variance = 2`) and strength 10 the result is
13 ∉ [8, 12], and with `attack_variance = 0` and strength 10 the result
is 11 ≠ 10 — contradicting the `Config::attack_variance` documentation and
the expectations asserted by `test_calculate_attack_power`. -/
theorem calculate_attack_power_exceeds_variance_interval :
    (calculate_attack_power testGame (constEnv 4294967295) 10).2 = 13 ∧
    ¬ (calculate_attack_power testGame (constEnv 4294967295) 10).2 ≤ 12 ∧
    (calculate_attack_power
      { testGame with config := { Config.default with attack_variance := 0 } }
      (constEnv 4294967295) 10).2 = 11 := by
  refine ⟨by decide, by decide, by decide⟩

/-- C2 fails on the code: with base strength below the variance and a low
draw, the negative `i32` intermediate of `calculate_attack_power` is cast
to `u32` unchecked and wraps to a huge value instead of clamping to 0:
with strength 0, `attack_variance = 2` and beacon draw `t = 0` the result
is `u32::MAX - 1 = 4294967294`, not 0. -/
theorem calculate_attack_power_wraps_instead_of_clamping :
    (calculate_attack_power testGame (constEnv 0) 0).2 = 4294967294 ∧
    (calculate_attack_power testGame (constEnv 0) 0).2 ≠ 0 := by
  refine ⟨by decide, by decide⟩

/-!  ## Config mutation (claim C10)  -/

/-- `apply_to` computes each field from the corresponding `Option` of the
mutation, and copies `attack_variance` from the old config (there is no
mutation field for it). -/
theorem apply_to_characterization (m : ConfigMutation) (c : Config) :
    m.apply_to c =
      ⟨m.hero_max_health.getD c.hero_max_health,
       m.starting_weapon_strength_range.getD c.starting_weapon_strength_range,
       m.purchased_weapon_strength_range.getD c.purchased_weapon_strength_range,
       m.hero_initial_potion_count.getD c.hero_initial_potion_count,
       m.enemy_health_range.getD c.enemy_health_range,
       m.enemy_strength_range.getD c.enemy_strength_range,
       m.enemy_gold_drop_range.getD c.enemy_gold_drop_range,
       c.attack_variance,
       m.enemy_wearing_hat_chance.getD c.enemy_wearing_hat_chance,
       m.hero_goes_first_chance.getD c.hero_goes_first_chance,
       m.rest_cost.getD c.rest_cost,
       m.potion_cost.getD c.potion_cost,
       m.weapon_cost.getD c.weapon_cost⟩ := by
  have h_hero_max_health : ∀ c' : Config,
      m.maybe_set_hero_max_health c' = { c' with hero_max_health := m.hero_max_health.getD c'.hero_max_health } := by
    intro c'
    unfold ConfigMutation.maybe_set_hero_max_health
    cases m.hero_max_health <;> rfl
  have h_starting_weapon_strength_range : ∀ c' : Config,
      m.maybe_set_starting_weapon_strength_range c' = { c' with starting_weapon_strength_range := m.starting_weapon_strength_range.getD c'.starting_weapon_strength_range } := by
    intro c'
    unfold ConfigMutation.maybe_set_starting_weapon_strength_range
    cases m.starting_weapon_strength_range <;> rfl
  have h_hero_initial_potion_count : ∀ c' : Config,
      m.maybe_set_hero_initial_potion_count c' = { c' with hero_initial_potion_count := m.hero_initial_potion_count.getD c'.hero_initial_potion_count } := by
    intro c'
    unfold ConfigMutation.maybe_set_hero_initial_potion_count
    cases m.hero_initial_potion_count <;> rfl
  have h_purchased_weapon_strength_range : ∀ c' : Config,
      m.maybe_set_purchased_weapon_strength_range c' = { c' with purchased_weapon_strength_range := m.purchased_weapon_strength_range.getD c'.purchased_weapon_strength_range } := by
    intro c'
    unfold ConfigMutation.maybe_set_purchased_weapon_strength_range
    cases m.purchased_weapon_strength_range <;> rfl
  have h_enemy_health_range : ∀ c' : Config,
      m.maybe_set_enemy_health_range c' = { c' with enemy_health_range := m.enemy_health_range.getD c'.enemy_health_range } := by
    intro c'
    unfold ConfigMutation.maybe_set_enemy_health_range
    cases m.enemy_health_range <;> rfl
  have h_enemy_strength_range : ∀ c' : Config,
      m.maybe_set_enemy_strength_range c' = { c' with enemy_strength_range := m.enemy_strength_range.getD c'.enemy_strength_range } := by
    intro c'
    unfold ConfigMutation.maybe_set_enemy_strength_range
    cases m.enemy_strength_range <;> rfl
  have h_enemy_gold_drop_range : ∀ c' : Config,
      m.maybe_set_enemy_gold_drop_range c' = { c' with enemy_gold_drop_range := m.enemy_gold_drop_range.getD c'.enemy_gold_drop_range } := by
    intro c'
    unfold ConfigMutation.maybe_set_enemy_gold_drop_range
    cases m.enemy_gold_drop_range <;> rfl
  have h_enemy_wearing_hat_chance : ∀ c' : Config,
      m.maybe_set_enemy_wearing_hat_chance c' = { c' with enemy_wearing_hat_chance := m.enemy_wearing_hat_chance.getD c'.enemy_wearing_hat_chance } := by
    intro c'
    unfold ConfigMutation.maybe_set_enemy_wearing_hat_chance
    cases m.enemy_wearing_hat_chance <;> rfl
  have h_hero_goes_first_chance : ∀ c' : Config,
      m.maybe_set_hero_goes_first_chance c' = { c' with hero_goes_first_chance := m.hero_goes_first_chance.getD c'.hero_goes_first_chance } := by
    intro c'
    unfold ConfigMutation.maybe_set_hero_goes_first_chance
    cases m.hero_goes_first_chance <;> rfl
  have h_rest_cost : ∀ c' : Config,
      m.maybe_set_rest_cost c' = { c' with rest_cost := m.rest_cost.getD c'.rest_cost } := by
    intro c'
    unfold ConfigMutation.maybe_set_rest_cost
    cases m.rest_cost <;> rfl
  have h_potion_cost : ∀ c' : Config,
      m.maybe_set_potion_cost c' = { c' with potion_cost := m.potion_cost.getD c'.potion_cost } := by
    intro c'
    unfold ConfigMutation.maybe_set_potion_cost
    cases m.potion_cost <;> rfl
  have h_weapon_cost : ∀ c' : Config,
      m.maybe_set_weapon_cost c' = { c' with weapon_cost := m.weapon_cost.getD c'.weapon_cost } := by
    intro c'
    unfold ConfigMutation.maybe_set_weapon_cost
    cases m.weapon_cost <;> rfl
  unfold ConfigMutation.apply_to
  rw [h_hero_max_health, h_starting_weapon_strength_range, h_hero_initial_potion_count, h_purchased_weapon_strength_range, h_enemy_health_range, h_enemy_strength_range, h_enemy_gold_drop_range, h_enemy_wearing_hat_chance, h_hero_goes_first_chance, h_rest_cost, h_potion_cost, h_weapon_cost]

/-- C10: applying any `ConfigMutation` (via `mutate_config`, by the owner)
leaves `config.attack_variance` unchanged — the mutation type has no field
for it — while every other `Config` field is updated exactly when the
corresponding mutation field is `Some`. -/
theorem mutate_config_never_changes_attack_variance :
    (∀ (m : ConfigMutation) (c : Config),
      (m.apply_to c).attack_variance = c.attack_variance ∧
      (m.apply_to c).hero_max_health = m.hero_max_health.getD c.hero_max_health ∧
      (m.apply_to c).starting_weapon_strength_range
        = m.starting_weapon_strength_range.getD c.starting_weapon_strength_range ∧
      (m.apply_to c).purchased_weapon_strength_range
        = m.purchased_weapon_strength_range.getD c.purchased_weapon_strength_range ∧
      (m.apply_to c).hero_initial_potion_count
        = m.hero_initial_potion_count.getD c.hero_initial_potion_count ∧
      (m.apply_to c).enemy_health_range = m.enemy_health_range.getD c.enemy_health_range ∧
      (m.apply_to c).enemy_strength_range = m.enemy_strength_range.getD c.enemy_strength_range ∧
      (m.apply_to c).enemy_gold_drop_range = m.enemy_gold_drop_range.getD c.enemy_gold_drop_range ∧
      (m.apply_to c).enemy_wearing_hat_chance
        = m.enemy_wearing_hat_chance.getD c.enemy_wearing_hat_chance ∧
      (m.apply_to c).hero_goes_first_chance
        = m.hero_goes_first_chance.getD c.hero_goes_first_chance ∧
      (m.apply_to c).rest_cost = m.rest_cost.getD c.rest_cost ∧
      (m.apply_to c).potion_cost = m.potion_cost.getD c.potion_cost ∧
      (m.apply_to c).weapon_cost = m.weapon_cost.getD c.weapon_cost) ∧
    (∀ (g : Game) (env : Env) (m : ConfigMutation), env.caller = g.owner →
      (mutate_config g env m).1.config = m.apply_to g.config ∧
      (mutate_config g env m).2 = .ok ()) := by
  constructor
  · intro m c
    rw [apply_to_characterization]
    exact ⟨rfl, rfl, rfl, rfl, rfl, rfl, rfl, rfl, rfl, rfl, rfl, rfl, rfl⟩
  · intro g env m h
    unfold mutate_config
    simp [h]

/-- Witness for C10: the owner mutates the config of the test game. -/
theorem mutate_config_never_changes_attack_variance_witness :
    (mutate_config testGame { constEnv 0 with caller := 0 }
        { potion_cost := some 1000 }).1.config
      = ConfigMutation.apply_to { potion_cost := some 1000 } testGame.config ∧
    (mutate_config testGame { constEnv 0 with caller := 0 }
        { potion_cost := some 1000 }).2 = .ok () :=
  mutate_config_never_changes_attack_variance.2 testGame
    { constEnv 0 with caller := 0 } { potion_cost := some 1000 } rfl

/-!  ## Hero creation and battle start (claims C8, C9)  -/

/-- The bounds of `random_in_range`, derived from `lerp_bounds`. -/
theorem random_in_range_bounds (g : Game) (env : Env) (r : Range)
    (h1 : r.start ≤ r.«end») (h2 : r.«end» < 4294967296) :
    r.start ≤ (random_in_range g env r).2 ∧ (random_in_range g env r).2 ≤ r.«end» :=
  lerp_bounds r.start r.«end» _ h1 h2

/-- C9: `create_hero` succeeds for a caller that already has a hero and
overwrites the stored hero with a brand-new one: health at
`config.hero_max_health`, potions at `config.hero_initial_potion_count`,
a newly minted weapon (the wrapped next token id), no hat, no battle, and
both victory-streak counters 0. -/
theorem create_hero_overwrites_existing_hero
    (g : Game) (env : Env) (hPrev : Hero)
    (hh : g.heroes env.caller = some hPrev)
    (hm : env.mintOk = true) (hf : env.freezeOk = true) (hs : env.setAttributeOk = true) :
    ∃ g' hero, create_hero g env = (g', .ok hero) ∧
      g'.heroes env.caller = some hero ∧
      hero.health = g.config.hero_max_health ∧
      hero.potion_count = g.config.hero_initial_potion_count ∧
      hero.weapon_id = wrappedTokenId g.next_token_id (some .weapon) ∧
      hero.hat_id = none ∧
      hero.battle = none ∧
      hero.consecutive_victory_count = 0 ∧
      hero.highest_consecutive_victory_count = 0 := by
  unfold create_hero mint_nft add_equipment_attribute
  simp only [hm, hf, hs, eq_self_iff_true, if_true]
  exact ⟨_, _, rfl,
    by simp only [eq_self_iff_true, if_true],
    rfl, rfl, rfl, rfl, rfl, rfl, rfl⟩

/-- Witness for C9: account 1 of the fixture game (which already stores
`heroPrev`) creates a hero again. -/
theorem create_hero_overwrites_existing_hero_witness :
    ∃ g' hero, create_hero testGameWithHero (constEnv 0) = (g', .ok hero) ∧
      g'.heroes (constEnv 0).caller = some hero ∧
      hero.health = testGameWithHero.config.hero_max_health ∧
      hero.potion_count = testGameWithHero.config.hero_initial_potion_count ∧
      hero.weapon_id = wrappedTokenId testGameWithHero.next_token_id (some .weapon) ∧
      hero.hat_id = none ∧
      hero.battle = none ∧
      hero.consecutive_victory_count = 0 ∧
      hero.highest_consecutive_victory_count = 0 :=
  create_hero_overwrites_existing_hero testGameWithHero (constEnv 0) heroPrev
    rfl rfl rfl rfl

/-- C8: for a hero that already has an active battle, `start_battle`
succeeds again and replaces the stored battle with a fresh one: round
number 0 and a newly generated enemy whose health and strength are drawn
from the configured ranges.  (`Hero.battle` is a single `Option Battle`
field, so a hero can never hold more than one battle.) -/
theorem start_battle_replaces_existing_battle
    (g : Game) (env : Env) (h0 : Hero) (b0 : Battle)
    (hh : g.heroes env.caller = some h0)
    (hb : h0.battle = some b0)
    (hm : env.mintOk = true)
    (hr1 : g.config.enemy_health_range.start ≤ g.config.enemy_health_range.«end»)
    (hr2 : g.config.enemy_health_range.«end» < 4294967296)
    (hr3 : g.config.enemy_strength_range.start ≤ g.config.enemy_strength_range.«end»)
    (hr4 : g.config.enemy_strength_range.«end» < 4294967296) :
    ∃ g' b',
      start_battle g env = (g', .ok ()) ∧
      g'.heroes env.caller = some { h0 with battle := some b' } ∧
      b'.round_number = 0 ∧
      g.config.enemy_health_range.start ≤ b'.enemy.health ∧
      b'.enemy.health ≤ g.config.enemy_health_range.«end» ∧
      g.config.enemy_strength_range.start ≤ b'.enemy.strength ∧
      b'.enemy.strength ≤ g.config.enemy_strength_range.«end» := by
  unfold start_battle mint_nft
  simp only [hh]
  by_cases hc : (random_chance g env g.config.enemy_wearing_hat_chance).2 = true
  · simp only [hc, hm, eq_self_iff_true, if_true, Bool.false_eq_true, if_false]
    exact ⟨_, _, rfl,
      by simp only [eq_self_iff_true, if_true]; exact rfl,
      by exact rfl,
      by exact (random_in_range_bounds _ _ _ hr1 hr2).1,
      by exact (random_in_range_bounds _ _ _ hr1 hr2).2,
      by exact (random_in_range_bounds _ _ _ hr3 hr4).1,
      by exact (random_in_range_bounds _ _ _ hr3 hr4).2⟩
  · simp only [hc, if_false]
    exact ⟨_, _, rfl,
      by simp only [eq_self_iff_true, if_true]; exact rfl,
      by exact rfl,
      by exact (random_in_range_bounds _ _ _ hr1 hr2).1,
      by exact (random_in_range_bounds _ _ _ hr1 hr2).2,
      by exact (random_in_range_bounds _ _ _ hr3 hr4).1,
      by exact (random_in_range_bounds _ _ _ hr3 hr4).2⟩

/-- Witness for C8: account 1 of the fixture game, already in a battle,
starts a battle again. -/
theorem start_battle_replaces_existing_battle_witness :
    ∃ g' b',
      start_battle testGameWithHero (constEnv 0) = (g', .ok ()) ∧
      g'.heroes (constEnv 0).caller = some { heroPrev with battle := some b' } ∧
      b'.round_number = 0 ∧
      testGameWithHero.config.enemy_health_range.start ≤ b'.enemy.health ∧
      b'.enemy.health ≤ testGameWithHero.config.enemy_health_range.«end» ∧
      testGameWithHero.config.enemy_strength_range.start ≤ b'.enemy.strength ∧
      b'.enemy.strength ≤ testGameWithHero.config.enemy_strength_range.«end» :=
  start_battle_replaces_existing_battle testGameWithHero (constEnv 0) heroPrev
    (Battle.new { hat_id := none, health := 40, strength := 9 })
    rfl rfl rfl (by decide) (by decide) (by decide) (by decide)

/-!  ## Advancing a battle (claims C4, C5, C6, C7)  -/

theorem eqExceptNonce_refl (g : Game) : g.eqExceptNonce g :=
  ⟨rfl, rfl, rfl, rfl, rfl, rfl, rfl⟩

theorem eqExceptNonce_trans {a b c : Game}
    (h1 : a.eqExceptNonce b) (h2 : b.eqExceptNonce c) : a.eqExceptNonce c := by
  obtain ⟨e1, e2, e3, e4, e5, e6, e7⟩ := h1
  obtain ⟨f1, f2, f3, f4, f5, f6, f7⟩ := h2
  exact ⟨e1.trans f1, e2.trans f2, e3.trans f3, e4.trans f4,
    e5.trans f5, e6.trans f6, e7.trans f7⟩

theorem random_in_range_frame (g : Game) (env : Env) (r : Range) :
    g.eqExceptNonce (random_in_range g env r).1 :=
  ⟨rfl, rfl, rfl, rfl, rfl, rfl, rfl⟩

theorem random_chance_frame (g : Game) (env : Env) (c : Nat) :
    g.eqExceptNonce (random_chance g env c).1 :=
  ⟨rfl, rfl, rfl, rfl, rfl, rfl, rfl⟩

theorem calculate_attack_power_frame (g : Game) (env : Env) (s : Nat) :
    g.eqExceptNonce (calculate_attack_power g env s).1 :=
  ⟨rfl, rfl, rfl, rfl, rfl, rfl, rfl⟩

theorem hero_action_frame (g : Game) (env : Env) (hero : Hero) (battle : Battle)
    (command : Command) : g.eqExceptNonce (hero_action g env hero battle command).1 := by
  unfold hero_action
  cases command
  case attack =>
    cases hgm : get_metadata g env hero.weapon_id with
    | error e => exact eqExceptNonce_refl g
    | ok o =>
      cases o with
      | none => exact eqExceptNonce_refl g
      | some metadata => exact calculate_attack_power_frame g env metadata.strength
  case heal =>
    by_cases hp : hero.potion_count = 0
    · simp only [hp, if_true, eq_self_iff_true]
      exact eqExceptNonce_refl g
    · simp only [hp, if_false]
      exact eqExceptNonce_refl g

theorem enemy_action_frame (g : Game) (env : Env) (hero : Hero) (battle : Battle) :
    g.eqExceptNonce (enemy_action g env hero battle).1 :=
  calculate_attack_power_frame g env battle.enemy.strength

theorem perform_actions_frame (g : Game) (env : Env) (hero : Hero) (battle : Battle)
    (command : Command) (first : Bool) :
    g.eqExceptNonce (perform_actions g env hero battle command first).1 := by
  unfold perform_actions
  cases first
  · simp only [Bool.false_eq_true, if_false]
    cases hea : (enemy_action g env hero battle).2 with
    | error e => exact enemy_action_frame g env hero battle
    | ok hb =>
      by_cases hover : battle_is_over hb.1 hb.2 = true
      · simp only [hover, if_true]
        exact enemy_action_frame g env hero battle
      · simp only [hover, if_false]
        exact eqExceptNonce_trans (enemy_action_frame g env hero battle)
          (hero_action_frame _ env hb.1 hb.2 command)
  · simp only [if_true]
    cases hha : (hero_action g env hero battle command).2 with
    | error e => exact hero_action_frame g env hero battle command
    | ok hb =>
      by_cases hover : battle_is_over hb.1 hb.2 = true
      · simp only [hover, if_true]
        exact hero_action_frame g env hero battle command
      · simp only [hover, if_false]
        exact eqExceptNonce_trans (hero_action_frame g env hero battle command)
          (enemy_action_frame _ env hb.1 hb.2)

theorem process_victory_frame (g : Game) (env : Env) (hero : Hero) (battle : Battle) :
    g.eqExceptNonce (process_victory g env hero battle).1 := by
  unfold process_victory
  by_cases hd : battle.enemy.is_dead = true
  · simp only [hd, if_true]
    by_cases hm : env.mintOk = true
    · simp only [hm, if_true]
      cases battle.enemy.hat_id with
      | some hat_id =>
        by_cases ht : env.transferOk = true
        · simp only [ht, if_true]
          exact random_in_range_frame g env g.config.enemy_gold_drop_range
        · simp only [ht, if_false]
          exact random_in_range_frame g env g.config.enemy_gold_drop_range
      | none => exact random_in_range_frame g env g.config.enemy_gold_drop_range
    · simp only [hm, if_false]
      exact random_in_range_frame g env g.config.enemy_gold_drop_range
  · simp only [hd, if_false]
    exact eqExceptNonce_refl g

theorem process_defeat_state (g : Game) (env : Env) (hero : Hero) (battle : Battle) :
    (process_defeat g env hero battle).1 = g := by
  unfold process_defeat
  by_cases hd : hero.is_dead = true
  · simp only [hd, if_true]
    cases battle.enemy.hat_id with
    | some hat_id =>
      by_cases hb : env.burnOk = true
      · simp [hb]
      · simp [hb]
    | none => rfl
  · simp [hd]

theorem finish_round_error_frame (g : Game) (env : Env) (caller : Nat)
    (hih eih : Nat) (hero : Hero) (battle : Battle) (g' : Game) (e : Error)
    (h : finish_round g env caller hih eih hero battle = (g', .error e)) :
    g.eqExceptNonce g' := by
  unfold finish_round at h
  by_cases hover : battle_is_over hero
      { battle with round_number := u32sat (battle.round_number + 1) } = true
  · simp only [hover, if_true] at h
    cases hpv : (process_victory g env { hero with battle := none }
        { battle with round_number := u32sat (battle.round_number + 1) }).2 with
    | error e2 =>
      simp only [hpv, Prod.mk.injEq] at h
      rw [← h.1]
      exact process_victory_frame g env _ _
    | ok v =>
      simp only [hpv] at h
      cases hpd : (process_defeat (process_victory g env { hero with battle := none }
          { battle with round_number := u32sat (battle.round_number + 1) }).1 env v.1
          { battle with round_number := u32sat (battle.round_number + 1) }).2 with
      | error e3 =>
        simp only [hpd, Prod.mk.injEq] at h
        rw [← h.1, process_defeat_state]
        exact process_victory_frame g env _ _
      | ok d =>
        simp only [hpd, Prod.mk.injEq, reduceCtorEq, and_false] at h
  · rw [if_neg hover] at h
    simp only [Prod.mk.injEq, reduceCtorEq, and_false] at h

/-- C4 fails on the code: `advance_battle` consumes random draws (and hence
advances the stored `random_nonce`) before `HeroHasNoPotions` or
`InvalidEquipment` can be raised, so those errors do not leave the whole
contract storage unchanged.  Concretely: healing with zero potions fails
with `HeroHasNoPotions`, yet the returned storage has `random_nonce = 1`
instead of the initial 0 (the turn-order draw was consumed). -/
theorem advance_battle_error_still_advances_nonce :
    (advance_battle testGameWithHero (constEnv 0) Command.heal).2
      = .error .heroHasNoPotions ∧
    (advance_battle testGameWithHero (constEnv 0) Command.heal).1.random_nonce
      ≠ testGameWithHero.random_nonce :=
  ⟨rfl, by decide⟩

/-- C4 (amended): whenever `advance_battle` returns `InvalidEquipment`,
`HeroHasNoPotions`, `HeroNotFound` or `HeroNotInBattle`, every component of
the contract storage except the random nonce is unchanged: the heroes map
(in particular the caller stored hero record), the config, the owner, the
collection and gold token ids, the next token id and the random seed.  Only
`random_nonce` may have advanced, by the draws made before the failure. -/
theorem advance_battle_error_leaves_storage_except_nonce
    (g : Game) (env : Env) (command : Command) (g' : Game) (e : Error)
    (hrun : advance_battle g env command = (g', .error e))
    (he : e = .invalidEquipment ∨ e = .heroHasNoPotions ∨
      e = .heroNotFound ∨ e = .heroNotInBattle) :
    g'.heroes = g.heroes ∧ g'.config = g.config ∧ g'.owner = g.owner ∧
    g'.collection_id = g.collection_id ∧ g'.gold_token_id = g.gold_token_id ∧
    g'.next_token_id = g.next_token_id ∧ g'.random_seed = g.random_seed := by
  have key : g.eqExceptNonce g' := by
    unfold advance_battle at hrun
    cases hh : g.heroes env.caller with
    | none =>
      simp only [hh, Prod.mk.injEq] at hrun
      rw [← hrun.1]
      exact eqExceptNonce_refl g
    | some hero =>
      simp only [hh] at hrun
      cases hb : hero.battle with
      | none =>
        simp only [hb, Prod.mk.injEq] at hrun
        rw [← hrun.1]
        exact eqExceptNonce_refl g
      | some battle =>
        simp only [hb] at hrun
        cases hpa : (perform_actions (random_chance g env g.config.hero_goes_first_chance).1
            env hero battle command
            (random_chance g env g.config.hero_goes_first_chance).2).2 with
        | error e2 =>
          simp only [hpa, Prod.mk.injEq] at hrun
          rw [← hrun.1]
          exact eqExceptNonce_trans (random_chance_frame g env _)
            (perform_actions_frame _ env hero battle command _)
        | ok hb1 =>
          simp only [hpa] at hrun
          exact eqExceptNonce_trans
            (eqExceptNonce_trans (random_chance_frame g env _)
              (perform_actions_frame _ env hero battle command _))
            (finish_round_error_frame _ env env.caller hero.health battle.enemy.health
              hb1.1 hb1.2 g' e hrun)
  obtain ⟨e1, e2, e3, e4, e5, e6, e7⟩ := key
  exact ⟨e7.symm, e1.symm, e2.symm, e3.symm, e4.symm, e5.symm, e6.symm⟩

/-- Witness for the amended C4 at the concrete failing heal. -/
theorem advance_battle_error_leaves_storage_except_nonce_witness :
    (advance_battle testGameWithHero (constEnv 0) Command.heal).1.heroes
        = testGameWithHero.heroes ∧
    (advance_battle testGameWithHero (constEnv 0) Command.heal).1.config
        = testGameWithHero.config ∧
    (advance_battle testGameWithHero (constEnv 0) Command.heal).1.owner
        = testGameWithHero.owner ∧
    (advance_battle testGameWithHero (constEnv 0) Command.heal).1.collection_id
        = testGameWithHero.collection_id ∧
    (advance_battle testGameWithHero (constEnv 0) Command.heal).1.gold_token_id
        = testGameWithHero.gold_token_id ∧
    (advance_battle testGameWithHero (constEnv 0) Command.heal).1.next_token_id
        = testGameWithHero.next_token_id ∧
    (advance_battle testGameWithHero (constEnv 0) Command.heal).1.random_seed
        = testGameWithHero.random_seed :=
  advance_battle_error_leaves_storage_except_nonce testGameWithHero (constEnv 0)
    Command.heal (advance_battle testGameWithHero (constEnv 0) Command.heal).1
    .heroHasNoPotions rfl (Or.inr (Or.inl rfl))

/-- Characterization of a successful victory block: when the enemy is dead
the hero keeps its health and battle, the streak counters are bumped, and
the gold reward is the `enemy_gold_drop_range` draw; when the enemy is
alive nothing happens. -/
theorem process_victory_spec (g : Game) (env : Env) (hero : Hero) (battle : Battle)
    (g2 : Game) (v : Hero × Option Nat × Option Nat)
    (h : process_victory g env hero battle = (g2, .ok v)) :
    v.1.health = hero.health ∧
    v.1.battle = hero.battle ∧
    (battle.enemy.health = 0 →
      v.1.consecutive_victory_count = u32sat (hero.consecutive_victory_count + 1) ∧
      v.1.highest_consecutive_victory_count =
        (if hero.highest_consecutive_victory_count
            < u32sat (hero.consecutive_victory_count + 1)
         then u32sat (hero.consecutive_victory_count + 1)
         else hero.highest_consecutive_victory_count) ∧
      v.2.1 = some ((random_in_range g env g.config.enemy_gold_drop_range).2)) ∧
    (battle.enemy.health ≠ 0 → g2 = g ∧ v = (hero, none, none)) := by
  unfold process_victory at h
  by_cases hd : battle.enemy.is_dead = true
  · have hd0 : battle.enemy.health = 0 := by
      simpa [Enemy.is_dead] using hd
    simp only [hd, if_true] at h
    by_cases hcmp : hero.highest_consecutive_victory_count
        < u32sat (hero.consecutive_victory_count + 1)
    all_goals (
      simp only [u32sat] at hcmp ⊢
      simp only [hcmp, if_true, if_false, u32sat] at h ⊢
      by_cases hmk : env.mintOk = true
      · simp only [hmk, if_true] at h
        cases hhat : battle.enemy.hat_id with
        | some hat_id =>
          by_cases ht : env.transferOk = true
          · simp only [hhat, ht, if_true] at h
            simp only [Prod.mk.injEq, Except.ok.injEq] at h
            rw [← h.2]
            refine ⟨rfl, rfl, fun _ => ⟨rfl, by simp [hcmp], rfl⟩, fun hne => absurd hd0 hne⟩
          · simp only [hhat, ht] at h
            simp at h
        | none =>
          simp only [hhat] at h
          simp only [Prod.mk.injEq, Except.ok.injEq] at h
          rw [← h.2]
          refine ⟨rfl, rfl, fun _ => ⟨rfl, by simp [hcmp], rfl⟩, fun hne => absurd hd0 hne⟩
      · simp only [hmk] at h
        simp at h)
  · have hd0 : battle.enemy.health ≠ 0 := by
      simpa [Enemy.is_dead] using hd
    simp only [if_neg hd] at h
    simp only [Prod.mk.injEq, Except.ok.injEq] at h
    rw [← h.2]
    exact ⟨rfl, rfl, fun hz => absurd hz hd0, fun _ => ⟨h.1.symm, rfl⟩⟩

/-- Characterization of a successful defeat block: the state is untouched;
when the hero is dead its health is reset and the streak cleared, otherwise
the hero passes through unchanged. -/
theorem process_defeat_spec (g : Game) (env : Env) (hero : Hero) (battle : Battle)
    (g2 : Game) (d : Hero × Option Nat)
    (h : process_defeat g env hero battle = (g2, .ok d)) :
    g2 = g ∧
    (hero.health = 0 →
      d.1 = { hero with health := g.config.hero_max_health,
                        consecutive_victory_count := 0 }) ∧
    (hero.health ≠ 0 → d.1 = hero) := by
  unfold process_defeat at h
  by_cases hd : hero.is_dead = true
  · have hd0 : hero.health = 0 := by
      simpa [Hero.is_dead] using hd
    simp only [hd, if_true] at h
    cases hhat : battle.enemy.hat_id with
    | some hat_id =>
      by_cases hb : env.burnOk = true
      · simp only [hhat, hb, if_true] at h
        simp only [Prod.mk.injEq, Except.ok.injEq] at h
        rw [← h.2]
        exact ⟨h.1.symm, fun _ => rfl, fun hne => absurd hd0 hne⟩
      · simp only [hhat, hb] at h
        simp at h
    | none =>
      simp only [hhat] at h
      simp only [Prod.mk.injEq, Except.ok.injEq] at h
      rw [← h.2]
      exact ⟨h.1.symm, fun _ => rfl, fun hne => absurd hd0 hne⟩
  · have hd0 : hero.health ≠ 0 := by
      simpa [Hero.is_dead] using hd
    simp only [if_neg hd] at h
    simp only [Prod.mk.injEq, Except.ok.injEq] at h
    rw [← h.2]
    exact ⟨h.1.symm, fun hz => absurd hz hd0, fun _ => rfl⟩

/-- Characterization of a successful `finish_round`: the reported event
fields, the round increment, the hero insertion, the defeat handling (with
its priority over the victory bump) and the victory rewards. -/
theorem finish_round_ok_spec (g : Game) (env : Env) (caller : Nat)
    (hih eih : Nat) (hero : Hero) (battle : Battle) (g' : Game) (out : AdvanceOutcome)
    (h : finish_round g env caller hih eih hero battle = (g', .ok out)) :
    out.heroHealthAfterActions = hero.health ∧
    out.enemyHealthAfterActions = battle.enemy.health ∧
    out.roundReported = battle.round_number ∧
    out.battleAfter.round_number = u32sat (battle.round_number + 1) ∧
    out.heroDamageReceived = hih - hero.health ∧
    out.enemyDamageReceived = eih - battle.enemy.health ∧
    g'.heroes caller = some out.heroAfter ∧
    (hero.health = 0 →
      out.heroAfter.health = g.config.hero_max_health ∧
      out.heroAfter.consecutive_victory_count = 0 ∧
      out.heroAfter.battle = none) ∧
    (hero.health = 0 → battle.enemy.health = 0 → out.goldMinted.isSome = true) ∧
    (battle.enemy.health = 0 →
      out.goldMinted = some ((random_in_range g env g.config.enemy_gold_drop_range).2) ∧
      out.heroAfter.highest_consecutive_victory_count =
        (if hero.highest_consecutive_victory_count
            < u32sat (hero.consecutive_victory_count + 1)
         then u32sat (hero.consecutive_victory_count + 1)
         else hero.highest_consecutive_victory_count) ∧
      (hero.health ≠ 0 →
        out.heroAfter.consecutive_victory_count
          = u32sat (hero.consecutive_victory_count + 1) ∧
        out.heroAfter.battle = none)) := by
  unfold finish_round at h
  by_cases hover : battle_is_over hero
      { battle with round_number := u32sat (battle.round_number + 1) } = true
  · simp only [hover, if_true] at h
    cases hpv : (process_victory g env { hero with battle := none }
        { battle with round_number := u32sat (battle.round_number + 1) }).2 with
    | error e2 =>
      simp only [hpv] at h
      simp at h
    | ok v =>
      simp only [hpv] at h
      cases hpd : (process_defeat (process_victory g env { hero with battle := none }
          { battle with round_number := u32sat (battle.round_number + 1) }).1 env v.1
          { battle with round_number := u32sat (battle.round_number + 1) }).2 with
      | error e3 =>
        simp only [hpd] at h
        simp at h
      | ok d =>
        simp only [hpd] at h
        simp only [Prod.mk.injEq, Except.ok.injEq] at h
        have hvs := process_victory_spec g env { hero with battle := none }
          { battle with round_number := u32sat (battle.round_number + 1) }
          (process_victory g env { hero with battle := none }
            { battle with round_number := u32sat (battle.round_number + 1) }).1 v
          (Prod.ext rfl hpv)
        have hds := process_defeat_spec (process_victory g env { hero with battle := none }
            { battle with round_number := u32sat (battle.round_number + 1) }).1 env v.1
          { battle with round_number := u32sat (battle.round_number + 1) }
          (process_defeat (process_victory g env { hero with battle := none }
              { battle with round_number := u32sat (battle.round_number + 1) }).1 env v.1
            { battle with round_number := u32sat (battle.round_number + 1) }).1 d
          (Prod.ext rfl hpd)
        have hcfg : (process_victory g env { hero with battle := none }
            { battle with round_number := u32sat (battle.round_number + 1) }).1.config
            = g.config :=
          (process_victory_frame g env { hero with battle := none }
            { battle with round_number := u32sat (battle.round_number + 1) }).1.symm
        obtain ⟨hvh, hvb, hvdead, hvalive⟩ := hvs
        obtain ⟨_hds1, hdsdead, hdsalive⟩ := hds
        rw [← h.2]
        refine ⟨rfl, rfl, rfl, rfl, rfl, rfl, ?_, ?_, ?_, ?_⟩
        · rw [← h.1]
          simp
        · intro hz
          have hv1z : v.1.health = 0 := by rw [hvh]; exact hz
          have hd1 := hdsdead hv1z
          refine ⟨?_, ?_, ?_⟩
          · rw [hd1]
            simpa using hcfg.symm ▸ rfl
          · rw [hd1]
          · rw [hd1]
            simp only []
            rw [hvb]
        · intro hz hez
          obtain ⟨_, _, hgold⟩ := hvdead hez
          simp only [hgold, Option.isSome_some]
        · intro hez
          obtain ⟨hcvc, hhigh, hgold⟩ := hvdead hez
          refine ⟨hgold, ?_, ?_⟩
          · by_cases hz : v.1.health = 0
            · rw [hdsdead hz]
              simpa using hhigh
            · rw [hdsalive hz]
              simpa using hhigh
          · intro haliveh
            have hv1a : v.1.health ≠ 0 := by rw [hvh]; exact haliveh
            rw [hdsalive hv1a]
            refine ⟨by simpa using hcvc, ?_⟩
            rw [hvb]
  · rw [if_neg hover] at h
    simp only [Prod.mk.injEq, Except.ok.injEq] at h
    have haliveh : ¬ hero.health = 0 := by
      intro hz
      exact hover (by simp [battle_is_over, Hero.is_dead, hz])
    have halivee : ¬ battle.enemy.health = 0 := by
      intro hz
      exact hover (by simp [battle_is_over, Enemy.is_dead, hz])
    rw [← h.2]
    refine ⟨rfl, rfl, rfl, rfl, rfl, rfl, ?_, ?_, ?_, ?_⟩
    · rw [← h.1]
      simp
    · intro hz
      exact absurd hz haliveh
    · intro hz
      exact absurd hz haliveh
    · intro hz
      exact absurd hz halivee

/-- `enemy_action` computed: it always succeeds, damages only the hero, and
leaves the battle untouched. -/
theorem enemy_action_eq (g : Game) (env : Env) (hero : Hero) (battle : Battle) :
    enemy_action g env hero battle
      = ((calculate_attack_power g env battle.enemy.strength).1,
         .ok ({ hero with health :=
            hero.health - (calculate_attack_power g env battle.enemy.strength).2 }, battle)) :=
  rfl

/-- A successful `hero_action` preserves the victory counters and the
battle round number. -/
theorem hero_action_ok_spec (g : Game) (env : Env) (hero : Hero) (battle : Battle)
    (command : Command) (hb : Hero × Battle)
    (h : (hero_action g env hero battle command).2 = .ok hb) :
    hb.1.consecutive_victory_count = hero.consecutive_victory_count ∧
    hb.1.highest_consecutive_victory_count = hero.highest_consecutive_victory_count ∧
    hb.2.round_number = battle.round_number := by
  unfold hero_action at h
  cases command
  case attack =>
    cases hgm : get_metadata g env hero.weapon_id with
    | error e =>
      simp only [hgm] at h
      simp at h
    | ok o =>
      cases o with
      | none =>
        simp only [hgm] at h
        simp at h
      | some metadata =>
        simp only [hgm, Except.ok.injEq] at h
        rw [← h]
        exact ⟨rfl, rfl, rfl⟩
  case heal =>
    by_cases hp : hero.potion_count = 0
    · simp only [hp, if_true, eq_self_iff_true] at h
      simp at h
    · simp only [hp, if_false, Except.ok.injEq] at h
      rw [← h]
      exact ⟨rfl, rfl, rfl⟩

/-- A successful round of actions preserves the victory counters and the
battle round number. -/
theorem perform_actions_ok_spec (g : Game) (env : Env) (hero : Hero) (battle : Battle)
    (command : Command) (first : Bool) (hb1 : Hero × Battle)
    (h : (perform_actions g env hero battle command first).2 = .ok hb1) :
    hb1.1.consecutive_victory_count = hero.consecutive_victory_count ∧
    hb1.1.highest_consecutive_victory_count = hero.highest_consecutive_victory_count ∧
    hb1.2.round_number = battle.round_number := by
  unfold perform_actions at h
  cases first
  · simp only [Bool.false_eq_true, if_false, enemy_action_eq] at h
    by_cases hover : battle_is_over
        { hero with health :=
          hero.health - (calculate_attack_power g env battle.enemy.strength).2 } battle = true
    · simp only [hover, if_true, Except.ok.injEq] at h
      rw [← h]
      exact ⟨rfl, rfl, rfl⟩
    · rw [if_neg hover] at h
      have := hero_action_ok_spec _ env _ battle command hb1 h
      simpa using this
  · simp only [if_true] at h
    cases hha : (hero_action g env hero battle command).2 with
    | error e =>
      simp only [hha] at h
      simp at h
    | ok hb =>
      simp only [hha] at h
      have hspec := hero_action_ok_spec g env hero battle command hb hha
      by_cases hover : battle_is_over hb.1 hb.2 = true
      · simp only [hover, if_true, Except.ok.injEq] at h
        rw [← h]
        exact hspec
      · rw [if_neg hover] at h
        simp only [enemy_action_eq, Except.ok.injEq] at h
        rw [← h]
        simpa using hspec

/-- Decomposition of a successful `advance_battle` into the turn-order
draw, the actions, and `finish_round`. -/
theorem advance_battle_ok_decomp (g : Game) (env : Env) (command : Command)
    (g' : Game) (out : AdvanceOutcome) (h0 : Hero) (b0 : Battle)
    (hh : g.heroes env.caller = some h0) (hb : h0.battle = some b0)
    (hrun : advance_battle g env command = (g', .ok out)) :
    ∃ hb1 : Hero × Battle,
      (perform_actions (random_chance g env g.config.hero_goes_first_chance).1 env h0 b0
        command (random_chance g env g.config.hero_goes_first_chance).2).2 = .ok hb1 ∧
      finish_round (perform_actions (random_chance g env g.config.hero_goes_first_chance).1
          env h0 b0 command (random_chance g env g.config.hero_goes_first_chance).2).1
        env env.caller h0.health b0.enemy.health hb1.1 hb1.2 = (g', .ok out) := by
  unfold advance_battle at hrun
  simp only [hh, hb] at hrun
  cases hpa : (perform_actions (random_chance g env g.config.hero_goes_first_chance).1 env
      h0 b0 command (random_chance g env g.config.hero_goes_first_chance).2).2 with
  | error e =>
    simp only [hpa] at hrun
    simp at hrun
  | ok hb1 =>
    simp only [hpa] at hrun
    exact ⟨hb1, rfl, hrun⟩

/-- The config seen by the later stages of `advance_battle` is the config
of the initial state: the randomness helpers and the actions touch only the
nonce. -/
theorem advance_battle_stage_config (g : Game) (env : Env) (h0 : Hero) (b0 : Battle)
    (command : Command) :
    (perform_actions (random_chance g env g.config.hero_goes_first_chance).1 env h0 b0
      command (random_chance g env g.config.hero_goes_first_chance).2).1.config
      = g.config :=
  ((eqExceptNonce_trans (random_chance_frame g env g.config.hero_goes_first_chance)
    (perform_actions_frame _ env h0 b0 command _)).1).symm

/-- C6: for every successful `advance_battle` call after which the hero
health is 0 (defeat), the stored hero has its health reset to
`config.hero_max_health`, its victory streak reset to 0 and its battle
cleared — and when the enemy also died in the same resolution, the victory
gold mint still happened (victory and defeat are independent checks). -/
theorem advance_battle_defeat_resets_hero (g : Game) (env : Env) (command : Command)
    (g' : Game) (out : AdvanceOutcome) (h0 : Hero) (b0 : Battle)
    (hh : g.heroes env.caller = some h0) (hb : h0.battle = some b0)
    (hrun : advance_battle g env command = (g', .ok out))
    (hdead : out.heroHealthAfterActions = 0) :
    out.heroAfter.health = g.config.hero_max_health ∧
    out.heroAfter.consecutive_victory_count = 0 ∧
    out.heroAfter.battle = none ∧
    g'.heroes env.caller = some out.heroAfter ∧
    (out.enemyHealthAfterActions = 0 → out.goldMinted.isSome = true) := by
  obtain ⟨hb1, hpa, hfin⟩ := advance_battle_ok_decomp g env command g' out h0 b0 hh hb hrun
  obtain ⟨e1, e2, e3, e4, e5, e6, e7, e8, e9, e10⟩ :=
    finish_round_ok_spec _ env env.caller h0.health b0.enemy.health hb1.1 hb1.2 g' out hfin
  have hz : hb1.1.health = 0 := by rw [← e1]; exact hdead
  obtain ⟨d1, d2, d3⟩ := e8 hz
  refine ⟨?_, d2, d3, e7, ?_⟩
  · rw [d1, advance_battle_stage_config]
  · intro hez
    exact e9 hz (by rw [← e2]; exact hez)

/-- C7: a fresh battle starts at round 0; every successful `advance_battle`
call increments the round number by exactly 1 (below the `u32` saturation
bound), reports the pre-increment round number, and reports damage deltas
equal to each side health before the call minus its post-action health,
which never exceed the starting healths (saturating subtraction). -/
theorem advance_battle_round_and_damage_accounting (g : Game) (env : Env)
    (command : Command) (g' : Game) (out : AdvanceOutcome) (h0 : Hero) (b0 : Battle)
    (hh : g.heroes env.caller = some h0) (hb : h0.battle = some b0)
    (hrun : advance_battle g env command = (g', .ok out))
    (hround : b0.round_number + 1 < 4294967296) :
    (∀ e : Enemy, (Battle.new e).round_number = 0) ∧
    out.roundReported = b0.round_number ∧
    out.battleAfter.round_number = b0.round_number + 1 ∧
    out.heroDamageReceived = h0.health - out.heroHealthAfterActions ∧
    out.enemyDamageReceived = b0.enemy.health - out.enemyHealthAfterActions ∧
    out.heroDamageReceived ≤ h0.health ∧
    out.enemyDamageReceived ≤ b0.enemy.health := by
  obtain ⟨hb1, hpa, hfin⟩ := advance_battle_ok_decomp g env command g' out h0 b0 hh hb hrun
  obtain ⟨e1, e2, e3, e4, e5, e6, e7, e8, e9, e10⟩ :=
    finish_round_ok_spec _ env env.caller h0.health b0.enemy.health hb1.1 hb1.2 g' out hfin
  obtain ⟨p1, p2, p3⟩ := perform_actions_ok_spec
    (random_chance g env g.config.hero_goes_first_chance).1 env h0 b0 command
    (random_chance g env g.config.hero_goes_first_chance).2 hb1 hpa
  have hb0r : b0.round_number + 1 ≤ 4294967296 - 1 := by omega
  have hsat : u32sat (hb1.2.round_number + 1) = b0.round_number + 1 := by
    rw [p3]
    exact Nat.min_eq_left hb0r
  refine ⟨fun e => rfl, ?_, ?_, ?_, ?_, ?_, ?_⟩
  · rw [e3, p3]
  · rw [e4, hsat]
  · rw [e5, e1]
  · rw [e6, e2]
  · rw [e5]
    exact Nat.sub_le _ _
  · rw [e6]
    exact Nat.sub_le _ _

/-- C5 (amended): for every successful `advance_battle` call after which
the enemy health is 0, the gold minted to the hero lies within
`config.enemy_gold_drop_range`, the highest streak counter is raised to the
new count exactly when it is exceeded, and — provided the hero did not also
die in the same resolution — the stored `consecutive_victory_count` equals
the old count plus 1. -/
theorem advance_battle_victory_rewards (g : Game) (env : Env) (command : Command)
    (g' : Game) (out : AdvanceOutcome) (h0 : Hero) (b0 : Battle)
    (hh : g.heroes env.caller = some h0) (hb : h0.battle = some b0)
    (hrun : advance_battle g env command = (g', .ok out))
    (hvict : out.enemyHealthAfterActions = 0)
    (hcv : h0.consecutive_victory_count + 1 < 4294967296)
    (hr1 : g.config.enemy_gold_drop_range.start ≤ g.config.enemy_gold_drop_range.«end»)
    (hr2 : g.config.enemy_gold_drop_range.«end» < 4294967296) :
    (∃ amt, out.goldMinted = some amt ∧
      g.config.enemy_gold_drop_range.start ≤ amt ∧
      amt ≤ g.config.enemy_gold_drop_range.«end») ∧
    out.heroAfter.highest_consecutive_victory_count =
      (if h0.highest_consecutive_victory_count < h0.consecutive_victory_count + 1
       then h0.consecutive_victory_count + 1
       else h0.highest_consecutive_victory_count) ∧
    (out.heroHealthAfterActions ≠ 0 →
      out.heroAfter.consecutive_victory_count = h0.consecutive_victory_count + 1) ∧
    g'.heroes env.caller = some out.heroAfter := by
  obtain ⟨hb1, hpa, hfin⟩ := advance_battle_ok_decomp g env command g' out h0 b0 hh hb hrun
  obtain ⟨e1, e2, e3, e4, e5, e6, e7, e8, e9, e10⟩ :=
    finish_round_ok_spec _ env env.caller h0.health b0.enemy.health hb1.1 hb1.2 g' out hfin
  obtain ⟨p1, p2, p3⟩ := perform_actions_ok_spec
    (random_chance g env g.config.hero_goes_first_chance).1 env h0 b0 command
    (random_chance g env g.config.hero_goes_first_chance).2 hb1 hpa
  have hez : hb1.2.enemy.health = 0 := by rw [← e2]; exact hvict
  obtain ⟨hgold, hhigh, halive⟩ := e10 hez
  have hcfg := advance_battle_stage_config g env h0 b0 command
  have hle : h0.consecutive_victory_count + 1 ≤ 4294967296 - 1 := by omega
  have hsat : u32sat (hb1.1.consecutive_victory_count + 1)
      = h0.consecutive_victory_count + 1 := by
    rw [p1]
    exact Nat.min_eq_left hle
  rw [hcfg] at hgold
  refine ⟨?_, ?_, ?_, e7⟩
  · exact ⟨_, hgold,
      (random_in_range_bounds
        (perform_actions (random_chance g env g.config.hero_goes_first_chance).1 env h0 b0
          command (random_chance g env g.config.hero_goes_first_chance).2).1 env
        g.config.enemy_gold_drop_range hr1 hr2).1,
      (random_in_range_bounds
        (perform_actions (random_chance g env g.config.hero_goes_first_chance).1 env h0 b0
          command (random_chance g env g.config.hero_goes_first_chance).2).1 env
        g.config.enemy_gold_drop_range hr1 hr2).2⟩
  · rw [hhigh, p2, hsat]
  · intro hna
    have hv1 := halive (by rw [← e1]; exact hna)
    rw [hv1.1, hsat]

/-- C5 fails on the code as stated: in a resolution where both sides end at
0 health, the enemy is dead (a victory per the claim) and gold is minted,
yet the stored `consecutive_victory_count` is 0, not the old count plus 1,
because the defeat handling runs afterwards and resets it. -/
theorem advance_battle_both_dead_does_not_increment_streak :
    ∃ g' out,
      advance_battle bothDeadGame (constEnv 4294967295) Command.attack = (g', .ok out) ∧
      out.enemyHealthAfterActions = 0 ∧
      out.heroHealthAfterActions = 0 ∧
      out.goldMinted.isSome = true ∧
      out.heroAfter.consecutive_victory_count = 0 ∧
      ¬ out.heroAfter.consecutive_victory_count
          = heroDying.consecutive_victory_count + 1 ∧
      g'.heroes 1 = some out.heroAfter :=
  ⟨_, _, rfl, rfl, rfl, rfl, rfl, by decide, by exact rfl⟩

/-- Witness for the amended C5 at a concrete winning run. -/
theorem advance_battle_victory_rewards_witness :
    (∃ amt,
      (okOr (advance_battle winGame (envAttack 0) Command.attack).2 defaultOutcome).goldMinted
        = some amt ∧
      winGame.config.enemy_gold_drop_range.start ≤ amt ∧
      amt ≤ winGame.config.enemy_gold_drop_range.«end») ∧
    (okOr (advance_battle winGame (envAttack 0) Command.attack).2
        defaultOutcome).heroAfter.highest_consecutive_victory_count =
      (if heroWinning.highest_consecutive_victory_count
          < heroWinning.consecutive_victory_count + 1
       then heroWinning.consecutive_victory_count + 1
       else heroWinning.highest_consecutive_victory_count) ∧
    (okOr (advance_battle winGame (envAttack 0) Command.attack).2
        defaultOutcome).heroAfter.consecutive_victory_count
      = heroWinning.consecutive_victory_count + 1 ∧
    (advance_battle winGame (envAttack 0) Command.attack).1.heroes (envAttack 0).caller
      = some (okOr (advance_battle winGame (envAttack 0) Command.attack).2
          defaultOutcome).heroAfter := by
  have h := advance_battle_victory_rewards winGame (envAttack 0) Command.attack
    (advance_battle winGame (envAttack 0) Command.attack).1
    (okOr (advance_battle winGame (envAttack 0) Command.attack).2 defaultOutcome)
    heroWinning
    { round_number := 2, enemy := { hat_id := none, health := 1, strength := 5 } }
    rfl rfl rfl rfl (by decide) (by decide) (by decide)
  exact ⟨h.1, h.2.1, h.2.2.1 (by decide), h.2.2.2⟩

/-- Witness for C6 at the concrete run where both sides die. -/
theorem advance_battle_defeat_resets_hero_witness :
    (okOr (advance_battle bothDeadGame (constEnv 4294967295) Command.attack).2
        defaultOutcome).heroAfter.health = bothDeadGame.config.hero_max_health ∧
    (okOr (advance_battle bothDeadGame (constEnv 4294967295) Command.attack).2
        defaultOutcome).heroAfter.consecutive_victory_count = 0 ∧
    (okOr (advance_battle bothDeadGame (constEnv 4294967295) Command.attack).2
        defaultOutcome).heroAfter.battle = none ∧
    (advance_battle bothDeadGame (constEnv 4294967295) Command.attack).1.heroes
        (constEnv 4294967295).caller
      = some (okOr (advance_battle bothDeadGame (constEnv 4294967295) Command.attack).2
          defaultOutcome).heroAfter ∧
    (okOr (advance_battle bothDeadGame (constEnv 4294967295) Command.attack).2
        defaultOutcome).goldMinted.isSome = true := by
  have h := advance_battle_defeat_resets_hero bothDeadGame (constEnv 4294967295)
    Command.attack
    (advance_battle bothDeadGame (constEnv 4294967295) Command.attack).1
    (okOr (advance_battle bothDeadGame (constEnv 4294967295) Command.attack).2
      defaultOutcome)
    heroDying
    { round_number := 3, enemy := { hat_id := none, health := 0, strength := 10 } }
    rfl rfl rfl rfl
  exact ⟨h.1, h.2.1, h.2.2.1, h.2.2.2.1, h.2.2.2.2 rfl⟩

/-- Witness for C7 at a concrete mid-battle round. -/
theorem advance_battle_round_and_damage_accounting_witness :
    (Battle.new { hat_id := none, health := 7, strength := 7 }).round_number = 0 ∧
    (okOr (advance_battle fightGame (envAttack 0) Command.attack).2
        defaultOutcome).roundReported = 3 ∧
    (okOr (advance_battle fightGame (envAttack 0) Command.attack).2
        defaultOutcome).battleAfter.round_number = 3 + 1 ∧
    (okOr (advance_battle fightGame (envAttack 0) Command.attack).2
        defaultOutcome).heroDamageReceived
      = heroFighting.health -
        (okOr (advance_battle fightGame (envAttack 0) Command.attack).2
          defaultOutcome).heroHealthAfterActions ∧
    (okOr (advance_battle fightGame (envAttack 0) Command.attack).2
        defaultOutcome).heroDamageReceived ≤ heroFighting.health := by
  have h := advance_battle_round_and_damage_accounting fightGame (envAttack 0)
    Command.attack
    (advance_battle fightGame (envAttack 0) Command.attack).1
    (okOr (advance_battle fightGame (envAttack 0) Command.attack).2 defaultOutcome)
    heroFighting
    { round_number := 3, enemy := { hat_id := none, health := 30, strength := 5 } }
    rfl rfl rfl (by decide)
  exact ⟨h.1 _, h.2.1, h.2.2.1, h.2.2.2.1, h.2.2.2.2.2.1⟩

end WasmConf
